import Mathlib

/-!
Shallow embedding of the WebSocket proxy backend of the zoneconfig repository
(file sense-360-zone-configurator/backend.py), together with theorems settling
the frozen claims about it.  Python sets of strings are modelled as
`Finset String`; JSON values as an inductive `JValue`; the three concurrent
loops of the proxy (upstream read loop, inbound sender loop, controller loop)
as atomic transition functions combined into a step relation.  Logging is
side-effect free in the source's observable behaviour and is omitted.
-/

namespace ZoneConfig

/-- Truthiness of an optional string, mirroring Python `if tok:` where `tok`
is `str | None`: `None` and the empty string are falsy. -/
def strTruthy : Option String → Bool
  | none => false
  | some s => s != ""

/-- Model of Python `str.endswith(suffix)` (case-sensitive suffix test). -/
def py_endswith (s suffix : String) : Bool :=
  suffix.data.isSuffixOf s.data

/-- Model of Python `str.rstrip('/')`: remove all trailing slash characters. -/
def py_rstrip_slash (s : String) : String :=
  ⟨(s.data.reverse.dropWhile (fun c => c = '/')).reverse⟩

/-- Model of Python slicing `s[:n]` for `0 ≤ n`: the first `n` characters. -/
def str_take (s : String) (n : Nat) : String :=
  ⟨s.data.take n⟩

/-- The fixed allow-list `required_suffixes` from `is_mmwave_entity`
(backend.py lines 404-441), verbatim and in source order. -/
def required_suffixes : List String := [
  "zone_1_begin_x", "zone_1_begin_y", "zone_1_end_x", "zone_1_end_y",
  "zone_2_begin_x", "zone_2_begin_y", "zone_2_end_x", "zone_2_end_y",
  "zone_3_begin_x", "zone_3_begin_y", "zone_3_end_x", "zone_3_end_y",
  "zone_4_begin_x", "zone_4_begin_y", "zone_4_end_x", "zone_4_end_y",
  "target_1_active", "target_2_active", "target_3_active",
  "target_1_x", "target_1_y", "target_1_speed", "target_1_resolution",
  "target_2_x", "target_2_y", "target_2_speed", "target_2_resolution",
  "target_3_x", "target_3_y", "target_3_speed", "target_3_resolution",
  "target_1_angle", "target_2_angle", "target_3_angle",
  "target_1_distance", "target_2_distance", "target_3_distance",
  "zone_1_occupancy_off_delay", "zone_2_occupancy_off_delay",
  "zone_3_occupancy_off_delay", "zone_4_occupancy_off_delay",
  "max_distance", "installation_angle",
  "occupancy_mask_1_begin_x", "occupancy_mask_1_begin_y",
  "occupancy_mask_1_end_x", "occupancy_mask_1_end_y",
  "occupancy_mask_2_begin_x", "occupancy_mask_2_begin_y",
  "occupancy_mask_2_end_x", "occupancy_mask_2_end_y",
  "bluetooth_switch", "inverse_mounting", "aggressive_target_clearing",
  "off_delay", "zone_1_off_delay", "zone_2_off_delay", "zone_3_off_delay",
  "zone_4_off_delay",
  "aggressive_timeout", "illuminance_offset_ui", "illuminance_offset",
  "esp32_led", "status_led"]

/-- Model of `is_mmwave_entity` (backend.py lines 399-443): an entity id
matches when it is non-empty and ends with some allow-listed suffix. -/
def is_mmwave_entity (entity_id : String) : Bool :=
  if entity_id = "" then false
  else required_suffixes.any (fun suffix => py_endswith entity_id suffix)

/-- Model of `should_forward_state_change` (backend.py lines 91-109): drop an
empty entity id; with a non-empty selection forward exactly the literal
members; with an empty selection fall back to the mmWave suffix allow-list. -/
def should_forward_state_change (entity_id : String)
    (selected_entities : Finset String) : Bool :=
  if entity_id = "" then false
  else if selected_entities.Nonempty then decide (entity_id ∈ selected_entities)
  else is_mmwave_entity entity_id

/-- Result of Python `urlparse` restricted to the `scheme://netloc/path`
URLs this backend feeds it (no params, query or fragment). -/
structure UrlParts where
  scheme : String
  netloc : String
  path : String
deriving Repr, DecidableEq

/-- Split a character list at the first occurrence of a separator sequence. -/
def splitOnFirst (sep : List Char) : List Char → Option (List Char × List Char)
  | [] => if sep.isEmpty then some ([], []) else none
  | c :: rest =>
    if sep.isPrefixOf (c :: rest) then some ([], (c :: rest).drop sep.length)
    else
      match splitOnFirst sep rest with
      | some (pre, post) => some (c :: pre, post)
      | none => none

/-- Model of Python `urlparse` on `scheme://netloc/path` inputs. -/
def urlparse (url : String) : UrlParts :=
  match splitOnFirst "://".data url.data with
  | none => { scheme := "", netloc := "", path := url }
  | some (schemeChars, rest) =>
    match splitOnFirst ['/'] rest with
    | none => { scheme := ⟨schemeChars⟩, netloc := ⟨rest⟩, path := "" }
    | some (netlocChars, pathChars) =>
      { scheme := ⟨schemeChars⟩, netloc := ⟨netlocChars⟩,
        path := ⟨'/' :: pathChars⟩ }

/-- Model of Python `urlunparse((scheme, netloc, path, '', '', ''))`. -/
def urlunparse (scheme netloc path : String) : String :=
  scheme ++ "://" ++ netloc ++ path

/-- Model of `get_ha_websocket_url` (backend.py lines 54-68).  The Python
`ValueError` raised on a missing API URL becomes the `Except.error` case. -/
def get_ha_websocket_url (home_assistant_api : String)
    (supervisor_token : Option String) : Except String String :=
  if strTruthy supervisor_token then Except.ok "ws://supervisor/core/websocket"
  else if home_assistant_api = "" then
    Except.error "Home Assistant API URL is required when no supervisor token is present."
  else
    let parsed := urlparse home_assistant_api
    let scheme := if parsed.scheme = "https" then "wss" else "ws"
    let stripped := py_rstrip_slash parsed.path
    let base_path :=
      if py_endswith stripped "/api" then str_take stripped (stripped.data.length - 4)
      else stripped
    let websocket_path := base_path ++ "/api/websocket"
    Except.ok (urlunparse scheme parsed.netloc
      (if websocket_path = "" then "/api/websocket" else websocket_path))

/-- Model of the dict returned by `build_auth_message` (backend.py lines
71-88): `None` when no token is available. -/
structure AuthMessage where
  type : String
  access_token : String
deriving Repr, DecidableEq

/-- Model of `build_auth_message`: prefer the supervisor token, fall back to
the Home Assistant token, otherwise no message. -/
def build_auth_message (supervisor_token ha_token : Option String) :
    Option AuthMessage :=
  if strTruthy supervisor_token then
    some { type := "auth", access_token := supervisor_token.getD "" }
  else if strTruthy ha_token then
    some { type := "auth", access_token := ha_token.getD "" }
  else none

/-- Parsed JSON values, as produced by Python `json.loads`. -/
inductive JValue where
  | null
  | bool (b : Bool)
  | str (s : String)
  | num (n : Int)
  | arr (items : List JValue)
  | obj (fields : List (String × JValue))
deriving Repr, Inhabited

/-- Model of Python `data.get(key)` on a parsed JSON dict: `None` when the
key is missing (or the value is not a dict). -/
def jGet (j : JValue) (key : String) : Option JValue :=
  match j with
  | JValue.obj fields => fields.lookup key
  | _ => none

/-- Model of Python `data.get(key, dflt)`. -/
def jGetD (j : JValue) (key : String) (dflt : JValue) : JValue :=
  (jGet j key).getD dflt

/-- Extract a string value, with a default for non-strings.  The source only
ever compares or suffix-matches these values as strings; a non-string value
is totalized to the default here. -/
def jStrD (j : JValue) (dflt : String) : String :=
  match j with
  | JValue.str s => s
  | _ => dflt

/-- Model of `data.get('type')` compared against string literals: the type
tag when it is present and a string. -/
def jType (data : JValue) : Option String :=
  match jGet data "type" with
  | some (JValue.str s) => some s
  | _ => none

/-- Test whether an optional JSON value is a given string, mirroring a
Python `==` comparison against a string literal. -/
def jIsStr (j : Option JValue) (s : String) : Bool :=
  match j with
  | some (JValue.str t) => t == s
  | _ => false

/-- Model of `entity.get('entity_id', '')` on one element of a `result`
list (backend.py line 504). -/
def entityIdOf (entity : JValue) : String :=
  jStrD (jGetD entity "entity_id" (JValue.str "")) ""

/-- Model of `data.get('event', {}).get('data', {}).get('entity_id', '')`
(backend.py line 516). -/
def stateChangedEntityId (data : JValue) : String :=
  jStrD (jGetD (jGetD (jGetD data "event" (JValue.obj [])) "data"
    (JValue.obj [])) "entity_id" (JValue.str "")) ""

/-- Model of `filtered_data = dict(data); filtered_data['result'] = v`
(backend.py lines 508-509): replace the binding when present, append when
absent, leaving every other binding unchanged. -/
def jSetKey (j : JValue) (key : String) (v : JValue) : JValue :=
  match j with
  | JValue.obj fields =>
    JValue.obj (if fields.any (fun kv => kv.1 == key)
      then fields.map (fun kv => if kv.1 == key then (key, v) else kv)
      else fields ++ [(key, v)])
  | other => other

/-- A text frame arriving from the upstream WebSocket, together with the
outcome of `json.loads` on it (backend.py line 475). -/
inductive InMsg where
  | malformed (raw : String)
  | frame (raw : String) (data : JValue)
deriving Repr, Inhabited

/-- An item placed on `from_ha_queue` for the client: either the original
text frame forwarded verbatim, or `json.dumps` of a rebuilt frame. -/
inductive OutMsg where
  | raw (s : String)
  | json (j : JValue)
deriving Repr, Inhabited

/-- A write to the upstream socket: the auth frame sent by `ha_on_open`, or
a frontend frame relayed by `forward_to_ha`. -/
inductive UpMsg where
  | auth (token : String)
  | relay (raw : String)
deriving Repr, DecidableEq, Inhabited

/-- The mutable state of one proxy session (`websocket_proxy`, backend.py
lines 446-619) together with the module-global `selected_entity_ids`.  The
`sent_to_ha` history records every write to the upstream socket. -/
structure ProxyState where
  selected_entity_ids : Finset String
  proxy_active : Bool
  connection_ready : Bool
  to_ha_queue : List String
  from_ha_queue : List OutMsg
  sent_to_ha : List UpMsg

/-- Session state at the start of `websocket_proxy`: live, not ready, empty
queues and no upstream writes, with no entities selected. -/
def initial_state : ProxyState :=
  { selected_entity_ids := ∅, proxy_active := true, connection_ready := false,
    to_ha_queue := [], from_ha_queue := [], sent_to_ha := [] }

/-- Model of `set_selected_entities` (backend.py lines 377-389): replace the
global set with `set(entity_ids)` and acknowledge with its size. -/
structure SetEntitiesResponse where
  success : Bool
  count : Nat
deriving Repr, DecidableEq

/-- The POST `/api/selected-entities` handler: atomically replace the
interest set and return the acknowledgment. -/
def set_selected_entities (st : ProxyState) (entity_ids : List String) :
    SetEntitiesResponse × ProxyState :=
  ({ success := true, count := entity_ids.toFinset.card },
   { st with selected_entity_ids := entity_ids.toFinset })

/-- Response of GET `/api/selected-entities` (backend.py lines 392-396).
Python returns `list(selected_entity_ids)` in unspecified order; the list is
modelled by the underlying set. -/
structure GetEntitiesResponse where
  entity_ids : Finset String
  count : Nat
deriving DecidableEq

/-- The GET `/api/selected-entities` handler. -/
def get_selected_entities (st : ProxyState) : GetEntitiesResponse :=
  { entity_ids := st.selected_entity_ids, count := st.selected_entity_ids.card }

/-- Model of `ha_on_open` (backend.py lines 457-469): clear readiness, then
send the auth frame when a token is available; with no token the socket is
closed instead (no write happens). -/
def ha_on_open (supervisor_token ha_token : Option String)
    (st : ProxyState) : ProxyState :=
  let cleared := { st with connection_ready := false }
  match build_auth_message supervisor_token ha_token with
  | some m => { cleared with sent_to_ha := cleared.sent_to_ha ++ [UpMsg.auth m.access_token] }
  | none => cleared

/-- Model of `ha_on_message` (backend.py lines 471-522), one upstream frame
processed atomically.  A frame `json.loads` rejects is put on the outbound
queue verbatim; auth frames only update the flags; a list-valued `result` is
filtered element-wise and suppressed when nothing survives; a `state_changed`
event is forwarded verbatim iff its entity passes the filter; every other
frame is forwarded verbatim. -/
def ha_on_message (st : ProxyState) (msg : InMsg) : ProxyState :=
  match msg with
  | InMsg.malformed raw =>
    { st with from_ha_queue := st.from_ha_queue ++ [OutMsg.raw raw] }
  | InMsg.frame raw data =>
    let mt := jType data
    if mt = some "auth_required" then st
    else if mt = some "auth_ok" then { st with connection_ready := true }
    else if mt = some "auth_invalid" then
      { st with proxy_active := false, connection_ready := false }
    else if mt = some "result" then
      match jGetD data "result" (JValue.arr []) with
      | JValue.arr result_data =>
        let filtered_entities := result_data.filter
          (fun entity =>
            should_forward_state_change (entityIdOf entity) st.selected_entity_ids)
        if filtered_entities.isEmpty then st
        else
          { st with from_ha_queue := st.from_ha_queue ++
              [OutMsg.json (jSetKey data "result" (JValue.arr filtered_entities))] }
      | _ =>
        { st with from_ha_queue := st.from_ha_queue ++ [OutMsg.raw raw] }
    else if mt = some "event" then
      if jIsStr (jGet (jGetD data "event" (JValue.obj [])) "event_type")
          "state_changed" then
        if should_forward_state_change (stateChangedEntityId data)
            st.selected_entity_ids then
          { st with from_ha_queue := st.from_ha_queue ++ [OutMsg.raw raw] }
        else st
      else
        { st with from_ha_queue := st.from_ha_queue ++ [OutMsg.raw raw] }
    else
      { st with from_ha_queue := st.from_ha_queue ++ [OutMsg.raw raw] }

/-- Model of `ha_on_error` (backend.py lines 524-526): clear readiness only. -/
def ha_on_error (st : ProxyState) : ProxyState :=
  { st with connection_ready := false }

/-- Model of `ha_on_close` (backend.py lines 528-535): end the session. -/
def ha_on_close (st : ProxyState) : ProxyState :=
  { st with proxy_active := false, connection_ready := false }

/-- One atomic iteration of the `forward_to_ha` sender loop (backend.py
lines 551-581).  The iteration runs only while the session is live; the
booleans are the environment outcomes of `ha_ws.sock.connected` and of the
send attempt.  A frame dequeued before readiness, with a dead socket, or
whose send fails, is re-enqueued at the tail and retried later. -/
def forward_to_ha_step (st : ProxyState) (sock_connected send_ok : Bool) :
    ProxyState :=
  if st.proxy_active then
    match st.to_ha_queue with
    | [] => st
    | message :: rest =>
      if st.connection_ready then
        if sock_connected then
          if send_ok then
            { st with to_ha_queue := rest,
                      sent_to_ha := st.sent_to_ha ++ [UpMsg.relay message] }
          else { st with to_ha_queue := rest ++ [message] }
        else { st with to_ha_queue := rest ++ [message] }
      else { st with to_ha_queue := rest ++ [message] }
  else st

/-- One receive in the controller loop (backend.py lines 599-603): every
non-empty client frame is enqueued verbatim onto `to_ha_queue`. -/
def frontend_receive_step (st : ProxyState) (message : String) : ProxyState :=
  if message = "" then st
  else { st with to_ha_queue := st.to_ha_queue ++ [message] }

/-- Run `n` sender iterations in a row with the socket connected and every
send succeeding. -/
def drain_inbound (st : ProxyState) : Nat → ProxyState
  | 0 => st
  | n + 1 => drain_inbound (forward_to_ha_step st true true) n

/-- The relay payloads among a list of upstream writes (the writes other
than the auth handshake frame). -/
def relayList (l : List UpMsg) : List String :=
  l.filterMap (fun m =>
    match m with
    | UpMsg.relay s => some s
    | UpMsg.auth _ => none)

/-- One atomic step of the session, from any of the three concurrent loops,
a WebSocketApp callback, or the REST interest-set handler, under a
configuration holding the two optional tokens. -/
inductive Step (sup ha : Option String) : ProxyState → ProxyState → Prop where
  | onOpen (st : ProxyState) : Step sup ha st (ha_on_open sup ha st)
  | onMessage (st : ProxyState) (msg : InMsg) : Step sup ha st (ha_on_message st msg)
  | onError (st : ProxyState) : Step sup ha st (ha_on_error st)
  | onClose (st : ProxyState) : Step sup ha st (ha_on_close st)
  | forward (st : ProxyState) (c k : Bool) : Step sup ha st (forward_to_ha_step st c k)
  | frontend (st : ProxyState) (m : String) : Step sup ha st (frontend_receive_step st m)
  | setEntities (st : ProxyState) (xs : List String) :
      Step sup ha st (set_selected_entities st xs).2

/-- A session state with readiness already acknowledged and two frames
pending in the inbound relay queue (used for concrete instantiations). -/
def ready_state : ProxyState :=
  { initial_state with connection_ready := true, to_ha_queue := ["f1", "f2"] }

/-- A session state whose liveness flag has been cleared while a frame is
still queued inbound (used for concrete instantiations). -/
def dead_state : ProxyState :=
  { initial_state with proxy_active := false, to_ha_queue := ["queued"] }

/-- The parsed upstream frame rejecting authentication. -/
def auth_invalid_frame : JValue := JValue.obj [("type", JValue.str "auth_invalid")]

/-- The parsed upstream frame acknowledging authentication. -/
def auth_ok_frame : JValue := JValue.obj [("type", JValue.str "auth_ok")]

/-- A bulk-result element whose entity id matches the mmWave allow-list. -/
def entity_zone1 : JValue := JValue.obj [("entity_id", JValue.str "sensor.zone_1_begin_x")]

/-- A bulk-result element whose entity id matches nothing. -/
def entity_unrelated : JValue := JValue.obj [("entity_id", JValue.str "sensor.unrelated")]

/-- A parsed `result` frame carrying the two elements above. -/
def bulk_result_frame : JValue := JValue.obj
  [("id", JValue.num 1), ("type", JValue.str "result"),
   ("success", JValue.bool true), ("result", JValue.arr [entity_zone1, entity_unrelated])]

/-- A parsed `state_changed` event frame whose nested data carries no
`entity_id` key. -/
def state_changed_no_id_frame : JValue := JValue.obj
  [("type", JValue.str "event"),
   ("event", JValue.obj [("event_type", JValue.str "state_changed"),
                         ("data", JValue.obj [])])]

/-- The serialized text of a client ping frame. -/
def ping_frame_raw : String := "\x7b\"type\": \"ping\"\x7d"

/-! Helper lemmas shared by the claim theorems. -/

lemma should_forward_empty_id (S : Finset String) :
    should_forward_state_change "" S = false := by
  simp [should_forward_state_change]

lemma relayList_append (l1 l2 : List UpMsg) :
    relayList (l1 ++ l2) = relayList l1 ++ relayList l2 := by
  simp [relayList]

lemma ha_on_open_relay (sup ha : Option String) (st : ProxyState) :
    relayList (ha_on_open sup ha st).sent_to_ha = relayList st.sent_to_ha := by
  unfold ha_on_open
  split <;> simp [relayList_append, relayList]

lemma ha_on_open_active (sup ha : Option String) (st : ProxyState) :
    (ha_on_open sup ha st).proxy_active = st.proxy_active := by
  unfold ha_on_open
  split <;> rfl

lemma ha_on_open_ready (sup ha : Option String) (st : ProxyState) :
    (ha_on_open sup ha st).connection_ready = false := by
  unfold ha_on_open
  split <;> rfl

lemma ha_on_message_sent (st : ProxyState) (m : InMsg) :
    (ha_on_message st m).sent_to_ha = st.sent_to_ha := by
  cases m <;> simp only [ha_on_message] <;> (repeat' split) <;> rfl

lemma ha_on_message_active_false (st : ProxyState) (m : InMsg)
    (h : st.proxy_active = false) : (ha_on_message st m).proxy_active = false := by
  cases m <;> simp only [ha_on_message] <;> (repeat' split) <;> simp [h]

lemma forward_step_inactive (st : ProxyState) (c k : Bool)
    (h : st.proxy_active = false) : forward_to_ha_step st c k = st := by
  simp [forward_to_ha_step, h]

lemma forward_step_sent_of_not_ready (st : ProxyState) (c k : Bool)
    (h : st.connection_ready = false) :
    (forward_to_ha_step st c k).sent_to_ha = st.sent_to_ha := by
  simp only [forward_to_ha_step]
  (repeat' split) <;> simp_all

lemma forward_step_ready (st : ProxyState) (c k : Bool) :
    (forward_to_ha_step st c k).connection_ready = st.connection_ready := by
  simp only [forward_to_ha_step]
  (repeat' split) <;> rfl

lemma frontend_receive_active (st : ProxyState) (m : String) :
    (frontend_receive_step st m).proxy_active = st.proxy_active := by
  unfold frontend_receive_step
  split <;> rfl

lemma frontend_receive_sent (st : ProxyState) (m : String) :
    (frontend_receive_step st m).sent_to_ha = st.sent_to_ha := by
  unfold frontend_receive_step
  split <;> rfl

lemma step_relay_frozen_of_not_ready {sup ha : Option String}
    {s s' : ProxyState} (hstep : Step sup ha s s')
    (h : s.connection_ready = false) :
    relayList s'.sent_to_ha = relayList s.sent_to_ha := by
  cases hstep with
  | onOpen => exact ha_on_open_relay sup ha s
  | onMessage msg => rw [ha_on_message_sent]
  | onError => rfl
  | onClose => rfl
  | forward c k => rw [forward_step_sent_of_not_ready s c k h]
  | frontend m => rw [frontend_receive_sent]
  | setEntities xs => rfl

lemma step_frozen_of_inactive {sup ha : Option String} {s s' : ProxyState}
    (hstep : Step sup ha s s') (h : s.proxy_active = false) :
    s'.proxy_active = false ∧ relayList s'.sent_to_ha = relayList s.sent_to_ha := by
  cases hstep with
  | onOpen => exact ⟨(ha_on_open_active sup ha s).trans h, ha_on_open_relay sup ha s⟩
  | onMessage msg => exact ⟨ha_on_message_active_false s msg h, by rw [ha_on_message_sent]⟩
  | onError => exact ⟨h, rfl⟩
  | onClose => exact ⟨rfl, rfl⟩
  | forward c k => rw [forward_step_inactive s c k h]; exact ⟨h, rfl⟩
  | frontend m => exact ⟨(frontend_receive_active s m).trans h, by rw [frontend_receive_sent]⟩
  | setEntities xs => exact ⟨h, rfl⟩

lemma steps_frozen_of_inactive {sup ha : Option String} {s s' : ProxyState}
    (hsteps : Relation.ReflTransGen (Step sup ha) s s')
    (h : s.proxy_active = false) :
    s'.proxy_active = false ∧ relayList s'.sent_to_ha = relayList s.sent_to_ha := by
  induction hsteps with
  | refl => exact ⟨h, rfl⟩
  | tail hab hbc ih =>
    obtain ⟨h1, h2⟩ := ih
    obtain ⟨h3, h4⟩ := step_frozen_of_inactive hbc h1
    exact ⟨h3, h4.trans h2⟩

lemma ready_set_only_on_auth_ok {sup ha : Option String} {s s' : ProxyState}
    (hstep : Step sup ha s s') (h0 : s.connection_ready = false)
    (h1 : s'.connection_ready = true) :
    ∃ (raw : String) (data : JValue),
      s' = ha_on_message s (InMsg.frame raw data) ∧
      jType data = some "auth_ok" := by
  cases hstep with
  | onOpen => rw [ha_on_open_ready] at h1; exact absurd h1 (by simp)
  | onMessage msg =>
    cases msg with
    | malformed raw => simp_all [ha_on_message]
    | frame raw data =>
      refine ⟨raw, data, rfl, ?_⟩
      by_contra hne
      simp only [ha_on_message] at h1
      (repeat' split at h1) <;> simp_all
  | onError => simp_all [ha_on_error]
  | onClose => simp_all [ha_on_close]
  | forward c k => rw [forward_step_ready] at h1; simp_all
  | frontend m => simp_all [frontend_receive_step]; split at h1 <;> simp_all
  | setEntities xs => simp_all [set_selected_entities]

lemma forward_step_no_drop (st : ProxyState) (c k : Bool)
    (h : st.proxy_active = true) :
    ((forward_to_ha_step st c k).to_ha_queue ++
      relayList (forward_to_ha_step st c k).sent_to_ha).Perm
      (st.to_ha_queue ++ relayList st.sent_to_ha) := by
  have key : ∀ (q : List String) (m : String) (rest : List String),
      (rest ++ (m :: q)).Perm ((m :: rest) ++ q) := by
    intro q m rest
    simpa using List.perm_middle
  simp only [forward_to_ha_step, h, if_true]
  rcases hq : st.to_ha_queue with _ | ⟨m, rest⟩
  · simp [hq]
  · dsimp only
    repeat' split
    · simp only [relayList_append]
      refine List.Perm.trans ?_ (key (relayList st.sent_to_ha) m rest)
      refine List.Perm.append_left rest ?_
      simpa [relayList] using
        (@List.perm_append_comm String (relayList st.sent_to_ha) [m])
    all_goals
      simp only [List.append_assoc]
      exact key (relayList st.sent_to_ha) m rest

lemma drain_inbound_delivers :
    ∀ (n : Nat) (st : ProxyState), st.proxy_active = true →
      st.connection_ready = true → st.to_ha_queue.length = n →
      drain_inbound st n =
        { st with
            to_ha_queue := [],
            sent_to_ha := st.sent_to_ha ++ st.to_ha_queue.map UpMsg.relay } := by
  intro n
  induction n with
  | zero =>
    intro st hact hr hl
    have hq : st.to_ha_queue = [] := List.length_eq_zero.mp hl
    simp only [drain_inbound, hq, List.map_nil, List.append_nil]
    rw [← hq]
  | succ n ih =>
    intro st hact hr hl
    rcases hq : st.to_ha_queue with _ | ⟨m, rest⟩
    · rw [hq] at hl; simp at hl
    · have hstep : forward_to_ha_step st true true =
          { st with
              to_ha_queue := rest,
              sent_to_ha := st.sent_to_ha ++ [UpMsg.relay m] } := by
        simp [forward_to_ha_step, hact, hr, hq]
      have hlen : rest.length = n := by
        rw [hq] at hl; simpa using hl
      have h2 := ih { st with
                        to_ha_queue := rest,
                        sent_to_ha := st.sent_to_ha ++ [UpMsg.relay m] } hact hr hlen
      simp only [drain_inbound]
      rw [hstep, h2]
      simp [List.append_assoc]

/-- C1 (amended): for every non-empty entity identifier and every non-empty
interest set, the filter forwards exactly the literal members, and its result
never consults the suffix allow-list (it equals a pure membership test);
empty identifiers are dropped even when the set contains the empty string. -/
theorem c1_nonempty_selection_is_membership :
    ∀ (e : String) (S : Finset String), S.Nonempty →
    (should_forward_state_change e S = (decide (e ≠ "") && decide (e ∈ S))) ∧
    (e ≠ "" → (should_forward_state_change e S = true ↔ e ∈ S)) := by
  intro e S hS
  by_cases he : e = ""
  · subst he
    simp [should_forward_state_change]
  · constructor
    · simp [should_forward_state_change, he, hS]
    · intro _
      simp [should_forward_state_change, he, hS]

/-- C1 witness: the amended statement instantiated at a selected sensor. -/
theorem c1_witness :
    ({"sensor.presence"} : Finset String).Nonempty ∧
    ((should_forward_state_change "sensor.presence" {"sensor.presence"} =
        (decide ("sensor.presence" ≠ "") &&
         decide ("sensor.presence" ∈ ({"sensor.presence"} : Finset String)))) ∧
     ("sensor.presence" ≠ "" →
       (should_forward_state_change "sensor.presence" {"sensor.presence"} = true ↔
        "sensor.presence" ∈ ({"sensor.presence"} : Finset String)))) :=
  ⟨by decide, c1_nonempty_selection_is_membership "sensor.presence"
    {"sensor.presence"} (by decide)⟩

/-- C1 counterexample: with the non-empty interest set containing only the
empty string, the empty entity identifier is a literal member yet the filter
drops it, refuting forward-iff-membership over all entity identifiers. -/
theorem c1_counterexample :
    should_forward_state_change "" {""} = false ∧
    "" ∈ ({""} : Finset String) ∧ ({""} : Finset String).Nonempty := by
  refine ⟨rfl, by decide, by decide⟩

/-- C2: with an empty interest set the filter forwards exactly the non-empty
identifiers ending (case-sensitively) in some allow-listed suffix; the two
concrete scenarios hold, and an empty identifier is dropped under every
interest set. -/
theorem c2_empty_selection_suffix_allowlist :
    (∀ e : String, should_forward_state_change e ∅ = true ↔
      (e ≠ "" ∧ ∃ suffix ∈ required_suffixes, py_endswith e suffix = true)) ∧
    should_forward_state_change "sensor.foo_zone_1_begin_x" ∅ = true ∧
    should_forward_state_change "sensor.unrelated" ∅ = false ∧
    (∀ S : Finset String, should_forward_state_change "" S = false) := by
  refine ⟨?_, by decide, by decide, should_forward_empty_id⟩
  intro e
  by_cases he : e = ""
  · subst he
    simp [should_forward_state_change]
  · simp [should_forward_state_change, he, is_mmwave_entity, List.any_eq_true]

/-- C3 (amended): no session step writes a relay frame to the upstream
socket before readiness; readiness is set only by an `auth_ok` frame; a live
sender iteration never drops a queued frame (queue plus relay history is
preserved up to permutation); and once ready with successful sends, draining
delivers every queued frame in order.  The exception forced by the
counterexample is the auth handshake frame written on open. -/
theorem c3_readiness_gating_and_delivery :
    (∀ (sup ha : Option String) (s s' : ProxyState), Step sup ha s s' →
      s.connection_ready = false →
      relayList s'.sent_to_ha = relayList s.sent_to_ha) ∧
    (∀ (sup ha : Option String) (s s' : ProxyState), Step sup ha s s' →
      s.connection_ready = false → s'.connection_ready = true →
      ∃ (raw : String) (data : JValue),
        s' = ha_on_message s (InMsg.frame raw data) ∧
        jType data = some "auth_ok") ∧
    (∀ (st : ProxyState) (c k : Bool), st.proxy_active = true →
      ((forward_to_ha_step st c k).to_ha_queue ++
        relayList (forward_to_ha_step st c k).sent_to_ha).Perm
        (st.to_ha_queue ++ relayList st.sent_to_ha)) ∧
    (∀ st : ProxyState, st.proxy_active = true → st.connection_ready = true →
      drain_inbound st st.to_ha_queue.length =
        { st with
            to_ha_queue := [],
            sent_to_ha := st.sent_to_ha ++ st.to_ha_queue.map UpMsg.relay }) :=
  ⟨fun _ _ _ _ hstep hr => step_relay_frozen_of_not_ready hstep hr,
   fun _ _ _ _ hstep h0 h1 => ready_set_only_on_auth_ok hstep h0 h1,
   fun st c k h => forward_step_no_drop st c k h,
   fun st h1 h2 => drain_inbound_delivers st.to_ha_queue.length st h1 h2 rfl⟩

/-- C3 witness: the four conjuncts instantiated on concrete states — an
error step in the initial state, the auth-ok message step, and a ready state
holding two queued frames. -/
theorem c3_witness :
    relayList (ha_on_error initial_state).sent_to_ha =
      relayList initial_state.sent_to_ha ∧
    (∃ (raw : String) (data : JValue),
      ha_on_message initial_state (InMsg.frame "ok" auth_ok_frame) =
        ha_on_message initial_state (InMsg.frame raw data) ∧
      jType data = some "auth_ok") ∧
    ((forward_to_ha_step ready_state true true).to_ha_queue ++
      relayList (forward_to_ha_step ready_state true true).sent_to_ha).Perm
      (ready_state.to_ha_queue ++ relayList ready_state.sent_to_ha) ∧
    drain_inbound ready_state ready_state.to_ha_queue.length =
      { ready_state with
          to_ha_queue := [],
          sent_to_ha := ready_state.sent_to_ha ++
            ready_state.to_ha_queue.map UpMsg.relay } :=
  ⟨c3_readiness_gating_and_delivery.1 none none initial_state
      (ha_on_error initial_state) (Step.onError initial_state) rfl,
   c3_readiness_gating_and_delivery.2.1 none none initial_state
      (ha_on_message initial_state (InMsg.frame "ok" auth_ok_frame))
      (Step.onMessage initial_state (InMsg.frame "ok" auth_ok_frame)) rfl rfl,
   c3_readiness_gating_and_delivery.2.2.1 ready_state true true rfl,
   c3_readiness_gating_and_delivery.2.2.2 ready_state rfl rfl⟩

/-- C3 counterexample: the open callback writes the authentication frame to
the upstream socket in a reachable step during which the readiness flag was
never set, so the socket is written to before readiness. -/
theorem c3_counterexample :
    Step (some "T1") none initial_state (ha_on_open (some "T1") none initial_state) ∧
    initial_state.sent_to_ha = [] ∧
    initial_state.connection_ready = false ∧
    (ha_on_open (some "T1") none initial_state).sent_to_ha = [UpMsg.auth "T1"] ∧
    (ha_on_open (some "T1") none initial_state).connection_ready = false :=
  ⟨Step.onOpen initial_state, rfl, rfl, rfl, rfl⟩

/-- C4 (amended): processing an `auth_invalid` frame marks the session
not-live and not-ready, leaves both queues untouched (so no error frame is
surfaced), and from any not-live state every further step sequence keeps the
session not-live and sends no further relay frame upstream. -/
theorem c4_auth_invalid_terminates_sends :
    (∀ (st : ProxyState) (raw : String) (data : JValue),
      jType data = some "auth_invalid" →
      (ha_on_message st (InMsg.frame raw data)).proxy_active = false ∧
      (ha_on_message st (InMsg.frame raw data)).connection_ready = false ∧
      (ha_on_message st (InMsg.frame raw data)).to_ha_queue = st.to_ha_queue ∧
      (ha_on_message st (InMsg.frame raw data)).from_ha_queue = st.from_ha_queue) ∧
    (∀ (sup ha : Option String) (s s' : ProxyState), s.proxy_active = false →
      Relation.ReflTransGen (Step sup ha) s s' →
      s'.proxy_active = false ∧
      relayList s'.sent_to_ha = relayList s.sent_to_ha) := by
  constructor
  · intro st raw data hty
    simp [ha_on_message, hty]
  · intro sup ha s s' h hsteps
    exact steps_frozen_of_inactive hsteps h

/-- C4 witness: the amended statement at the concrete `auth_invalid` frame
and at a concrete not-live state with a queued frame. -/
theorem c4_witness :
    jType auth_invalid_frame = some "auth_invalid" ∧
    ((ha_on_message initial_state (InMsg.frame "fr" auth_invalid_frame)).proxy_active = false ∧
     (ha_on_message initial_state (InMsg.frame "fr" auth_invalid_frame)).connection_ready = false ∧
     (ha_on_message initial_state (InMsg.frame "fr" auth_invalid_frame)).to_ha_queue =
       initial_state.to_ha_queue ∧
     (ha_on_message initial_state (InMsg.frame "fr" auth_invalid_frame)).from_ha_queue =
       initial_state.from_ha_queue) ∧
    (dead_state.proxy_active = false ∧
     relayList dead_state.sent_to_ha = relayList dead_state.sent_to_ha) :=
  ⟨rfl,
   c4_auth_invalid_terminates_sends.1 initial_state "fr" auth_invalid_frame rfl,
   c4_auth_invalid_terminates_sends.2 none none dead_state dead_state rfl
     Relation.ReflTransGen.refl⟩

/-- C4 counterexample: processing the `auth_invalid` frame enqueues nothing
for the client — the outbound queue stays empty even though the session is
marked not-live — so no terminal error frame is surfaced. -/
theorem c4_counterexample :
    (ha_on_message initial_state (InMsg.frame "\x7b\"type\": \"auth_invalid\"\x7d"
        auth_invalid_frame)).from_ha_queue = [] ∧
    (ha_on_message initial_state (InMsg.frame "\x7b\"type\": \"auth_invalid\"\x7d"
        auth_invalid_frame)).proxy_active = false :=
  ⟨rfl, rfl⟩

/-- C5: an upstream `result` frame with a list-valued result has each
filter-rejected element removed; one rebuilt frame is enqueued exactly when
some element survives, and the frame is suppressed entirely otherwise; in the
concrete scenario only the `sensor.zone_1_begin_x` element is forwarded. -/
theorem c5_result_list_filtering :
    (∀ (st : ProxyState) (raw : String) (data : JValue) (items : List JValue),
      jType data = some "result" →
      jGetD data "result" (JValue.arr []) = JValue.arr items →
      ha_on_message st (InMsg.frame raw data) =
        (if (items.filter (fun e => should_forward_state_change (entityIdOf e)
              st.selected_entity_ids)).isEmpty
         then st
         else { st with
                  from_ha_queue := st.from_ha_queue ++
                    [OutMsg.json (jSetKey data "result" (JValue.arr
                      (items.filter (fun e => should_forward_state_change
                        (entityIdOf e) st.selected_entity_ids))))] })) ∧
    (ha_on_message initial_state (InMsg.frame "bulk" bulk_result_frame)).from_ha_queue =
      [OutMsg.json (JValue.obj
        [("id", JValue.num 1), ("type", JValue.str "result"),
         ("success", JValue.bool true), ("result", JValue.arr [entity_zone1])])] := by
  constructor
  · intro st raw data items hty hres
    simp [ha_on_message, hty, hres]
  · rfl

/-- C5 witness: the general statement instantiated at the two-entity bulk
result frame under the empty interest set. -/
theorem c5_witness :
    jType bulk_result_frame = some "result" ∧
    jGetD bulk_result_frame "result" (JValue.arr []) =
      JValue.arr [entity_zone1, entity_unrelated] ∧
    ha_on_message initial_state (InMsg.frame "bulk" bulk_result_frame) =
      (if (([entity_zone1, entity_unrelated].filter (fun e =>
            should_forward_state_change (entityIdOf e)
              initial_state.selected_entity_ids))).isEmpty
       then initial_state
       else { initial_state with
                from_ha_queue := initial_state.from_ha_queue ++
                  [OutMsg.json (jSetKey bulk_result_frame "result" (JValue.arr
                    ([entity_zone1, entity_unrelated].filter (fun e =>
                      should_forward_state_change (entityIdOf e)
                        initial_state.selected_entity_ids))))] }) :=
  ⟨rfl, rfl, c5_result_list_filtering.1 initial_state "bulk" bulk_result_frame
    [entity_zone1, entity_unrelated] rfl rfl⟩

/-- C6 (amended): a frame `json.loads` rejects is forwarded verbatim to the
client (enqueued on the outbound queue, not dropped), changing nothing else;
a `state_changed` event missing its entity id leaves the state entirely
unchanged (logged and dropped). -/
theorem c6_malformed_and_missing_id :
    (∀ (st : ProxyState) (raw : String),
      ha_on_message st (InMsg.malformed raw) =
        { st with from_ha_queue := st.from_ha_queue ++ [OutMsg.raw raw] }) ∧
    (∀ (st : ProxyState) (raw : String) (data : JValue),
      jType data = some "event" →
      jIsStr (jGet (jGetD data "event" (JValue.obj [])) "event_type")
        "state_changed" = true →
      stateChangedEntityId data = "" →
      ha_on_message st (InMsg.frame raw data) = st) := by
  constructor
  · intro st raw
    rfl
  · intro st raw data hty hev hid
    simp [ha_on_message, hty, hev, hid, should_forward_empty_id]

/-- C6 witness: the amended statement at a concrete unparsable frame and at
the concrete `state_changed` event with no entity id. -/
theorem c6_witness :
    (ha_on_message initial_state (InMsg.malformed "oops") =
      { initial_state with from_ha_queue := [OutMsg.raw "oops"] }) ∧
    jType state_changed_no_id_frame = some "event" ∧
    jIsStr (jGet (jGetD state_changed_no_id_frame "event" (JValue.obj []))
      "event_type") "state_changed" = true ∧
    stateChangedEntityId state_changed_no_id_frame = "" ∧
    ha_on_message initial_state (InMsg.frame "ev" state_changed_no_id_frame) =
      initial_state :=
  ⟨c6_malformed_and_missing_id.1 initial_state "oops", rfl, rfl, rfl,
   c6_malformed_and_missing_id.2 initial_state "ev" state_changed_no_id_frame
     rfl rfl rfl⟩

/-- C6 counterexample: a non-JSON upstream frame is enqueued for the client
rather than dropped — the outbound queue changes — refuting that malformed
frames are never enqueued. -/
theorem c6_counterexample :
    (ha_on_message initial_state (InMsg.malformed "not-json")).from_ha_queue =
      [OutMsg.raw "not-json"] ∧
    (ha_on_message initial_state (InMsg.malformed "not-json")).from_ha_queue ≠
      initial_state.from_ha_queue := by
  refine ⟨rfl, ?_⟩
  intro h
  simp [ha_on_message, initial_state] at h

/-- C7 (amended): the controller does not parse client frames at all: every
non-empty client frame, a ping included, is enqueued verbatim into the
inbound relay queue, and nothing else in the state changes (in particular no
pong is produced). -/
theorem c7_client_frames_forwarded_verbatim :
    ∀ (st : ProxyState) (message : String), message ≠ "" →
    frontend_receive_step st message =
      { st with to_ha_queue := st.to_ha_queue ++ [message] } := by
  intro st message h
  simp [frontend_receive_step, h]

/-- C7 witness: the amended statement at the serialized ping frame. -/
theorem c7_witness :
    ping_frame_raw ≠ "" ∧
    frontend_receive_step initial_state ping_frame_raw =
      { initial_state with to_ha_queue := [ping_frame_raw] } :=
  ⟨by decide, c7_client_frames_forwarded_verbatim initial_state ping_frame_raw
    (by decide)⟩

/-- C7 counterexample: a client ping frame is enqueued into the inbound
relay queue and nothing is produced for the client, refuting the immediate
pong reply and the not-queued behaviour. -/
theorem c7_counterexample :
    (frontend_receive_step initial_state ping_frame_raw).to_ha_queue =
      [ping_frame_raw] ∧
    (frontend_receive_step initial_state ping_frame_raw).from_ha_queue = [] :=
  ⟨rfl, rfl⟩

/-- C8: with no supervisor token, the upstream WebSocket URL derived from
the base URL `https://ha.example/api/` is exactly
`wss://ha.example/api/websocket`. -/
theorem c8_url_derivation : get_ha_websocket_url "https://ha.example/api/" none =
    Except.ok "wss://ha.example/api/websocket" := rfl

/-- C9: replacing the interest set twice with the same contents returns the
same acknowledgment both times, leaves the stored set identical after either
replacement, and never touches the outbound relay queue. -/
theorem c9_set_entities_idempotent : ∀ (st : ProxyState) (entity_ids : List String),
    (set_selected_entities (set_selected_entities st entity_ids).2 entity_ids).1 =
      (set_selected_entities st entity_ids).1 ∧
    ((set_selected_entities (set_selected_entities st entity_ids).2 entity_ids).2).selected_entity_ids =
      ((set_selected_entities st entity_ids).2).selected_entity_ids ∧
    ((set_selected_entities st entity_ids).2).from_ha_queue = st.from_ha_queue ∧
    ((set_selected_entities (set_selected_entities st entity_ids).2 entity_ids).2).from_ha_queue =
      st.from_ha_queue := by
  intro st entity_ids
  exact ⟨rfl, rfl, rfl, rfl⟩

/-- C10: the acknowledgment count equals the number of distinct identifiers
in the input (duplicates collapsed, not the raw length: a concrete
duplicated input of length two acknowledges one), and a subsequent read
returns exactly that set with the same count. -/
theorem c10_count_is_distinct : ∀ (st : ProxyState) (entity_ids : List String),
    (set_selected_entities st entity_ids).1.count = entity_ids.dedup.length ∧
    get_selected_entities (set_selected_entities st entity_ids).2 =
      { entity_ids := entity_ids.toFinset, count := entity_ids.dedup.length } ∧
    (set_selected_entities initial_state
      ["sensor.kitchen_target_1_x", "sensor.kitchen_target_1_x"]).1.count = 1 ∧
    (["sensor.kitchen_target_1_x", "sensor.kitchen_target_1_x"] : List String).length = 2 := by
  intro st entity_ids
  refine ⟨List.card_toFinset entity_ids, ?_, by decide, rfl⟩
  simp [get_selected_entities, set_selected_entities, List.card_toFinset]

end ZoneConfig
